import Mathlib

/-!
Verification development for the rdf_dynsyn crate: a shallow embedding of its
syntax-correspondence registry, dynamic parser/serializer dispatch, statement
adaptation and error unification layers, with theorems checking the crate's
specification against the code.
-/

deriving instance DecidableEq for Except

namespace RdfDynsyn

/-- Modelled from the spec: the crate's `syntax` module (declaring `RdfSyntax` and
its constants) is not among the provided sources; per spec section 3 a syntax is an
opaque, finite, comparable identifier, and section 6 fixes the eleven known
syntaxes. Constructors are named after the constants used throughout the sources
(`syntax::TURTLE`, `syntax::N_TRIPLES`, ...). -/
inductive RdfSyntaxId : Type
  | turtle
  | nTriples
  | nQuads
  | triG
  | rdfXml
  | jsonLd
  | htmlRdfa
  | xhtmlRdfa
  | owl2Manchester
  | owl2Xml
  | n3
deriving DecidableEq, Repr

/-- Embeds `FileExtension` (file_extension.rs): a case-sensitive string wrapped in
a distinct type; derived equality is exact string equality, as in the source's
`#[derive(PartialEq, Eq, Hash)]`. -/
structure FileExtension where
  val : String
deriving DecidableEq, Repr

/-- Embeds the blanket `impl From<T> for FileExtension` (file_extension.rs):
wraps the given string unchanged, with no normalization. -/
def FileExtension.from_string (v : String) : FileExtension :=
  ⟨v⟩

/-- Splits a character list at every occurrence of the separator, mirroring
`String.splitOn` for a single-character separator (kept on character lists so
that concrete instances evaluate inside the kernel). -/
def splitOnChar (sep : Char) : List Char → List (List Char)
  | [] => [[]]
  | c :: rest =>
    let r := splitOnChar sep rest
    if c = sep then [] :: r
    else match r with
      | [] => [[c]]
      | h :: t => (c :: h) :: t

/-- Models the Rust standard library's `Path::file_name` over UTF-8 path strings
(an external callee of `FileExtension::from_path`): the final path component
(empty and current-directory components being skipped), or `none` when the path
has no file name (empty path, root, or a path ending in a parent-directory
component). -/
def fileNameOf (path : String) : Option (List Char) :=
  let comps := (splitOnChar ('/') path.toList).filter (fun c => !(c.isEmpty || c = ['.']))
  match comps.getLast? with
  | some c => if c = ['.', '.'] then none else some c
  | none => none

/-- Models the extension rule of the Rust standard library's `Path::extension`
on a file name: the portion after the final dot, where a dot that starts the
file name does not count as an extension separator. -/
def extensionOfFileName (name : List Char) : Option String :=
  let parts := splitOnChar ('.') name
  match parts with
  | [] => none
  | [_] => none
  | first :: rest =>
    if first.isEmpty && rest.length = 1 then none
    else some (String.mk (parts.getLastD []))

/-- Models the composition `path.extension().and_then(OsStr::to_str)` used by
`FileExtension::from_path`. Paths are modelled as UTF-8 strings, so the
`OsStr::to_str` step never fails in this embedding. -/
def pathExtension (path : String) : Option String :=
  (fileNameOf path).bind extensionOfFileName

/-- Embeds `FileExtension::from_path_str` composed with `FileExtension::from_path`
(file_extension.rs): extracts the path's extension component and wraps it
verbatim via the `From` impl. -/
def FileExtension.from_path_str (path : String) : Option FileExtension :=
  (pathExtension path).map FileExtension.from_string

namespace file_extension

/-- Embeds the `HTML` constant of file_extension.rs. -/
def HTML : FileExtension := ⟨"html"⟩

/-- Embeds the `JSON` constant of file_extension.rs. -/
def JSON : FileExtension := ⟨"json"⟩

/-- Embeds the `JSONLD` constant of file_extension.rs. -/
def JSONLD : FileExtension := ⟨"jsonld"⟩

/-- Embeds the `N3` constant of file_extension.rs. -/
def N3 : FileExtension := ⟨"n3"⟩

/-- Embeds the `NQ` constant of file_extension.rs. -/
def NQ : FileExtension := ⟨"nq"⟩

/-- Embeds the `NQUADS` constant of file_extension.rs. -/
def NQUADS : FileExtension := ⟨"nquads"⟩

/-- Embeds the `NT` constant of file_extension.rs. -/
def NT : FileExtension := ⟨"nt"⟩

/-- Embeds the `NTRIPLES` constant of file_extension.rs, faithfully to the
source, which defines it as `FileExtension::from_static("ttl")` (not
`"ntriples"`). -/
def NTRIPLES : FileExtension := ⟨"ttl"⟩

/-- Embeds the `OMN` constant of file_extension.rs. -/
def OMN : FileExtension := ⟨"omn"⟩

/-- Embeds the `OWL` constant of file_extension.rs. -/
def OWL : FileExtension := ⟨"owl"⟩

/-- Embeds the `OWX` constant of file_extension.rs. -/
def OWX : FileExtension := ⟨"owx"⟩

/-- Embeds the `RDF` constant of file_extension.rs. -/
def RDF : FileExtension := ⟨"rdf"⟩

/-- Embeds the `RDFXML` constant of file_extension.rs. -/
def RDFXML : FileExtension := ⟨"rdfxml"⟩

/-- Embeds the `TRIG` constant of file_extension.rs. -/
def TRIG : FileExtension := ⟨"trig"⟩

/-- Embeds the `TTL` constant of file_extension.rs. -/
def TTL : FileExtension := ⟨"ttl"⟩

/-- Embeds the `TURTLE` constant of file_extension.rs. -/
def TURTLE : FileExtension := ⟨"turtle"⟩

/-- Embeds the `XHTML` constant of file_extension.rs. -/
def XHTML : FileExtension := ⟨"xhtml"⟩

end file_extension

/-- Models a MIME media-type value as its type/subtype essence string; spec
section 3 requires correspondence lookup to compare type and subtype, and all
table keys are parameterless. -/
structure MediaType where
  essence : String
deriving DecidableEq, Repr

namespace media_type

/-- Modelled from the spec: the crate's `media_type` module is not among the
provided sources; the constant media types are those of the spec section 6
table. -/
def TEXT_HTML : MediaType := ⟨"text/html"⟩

/-- Modelled from the spec: canonical media type for JSON-LD. -/
def APPLICATION_JSON_LD : MediaType := ⟨"application/ld+json"⟩

/-- Modelled from the spec: canonical media type for Notation3. -/
def TEXT_N3 : MediaType := ⟨"text/n3"⟩

/-- Modelled from the spec: canonical media type for N-Quads. -/
def APPLICATION_N_QUADS : MediaType := ⟨"application/n-quads"⟩

/-- Modelled from the spec: canonical media type for N-Triples. -/
def APPLICATION_N_TRIPLES : MediaType := ⟨"application/n-triples"⟩

/-- Modelled from the spec: canonical media type for OWL2 Manchester. -/
def TEXT_OWL_MANCHESTER : MediaType := ⟨"text/owl-manchester"⟩

/-- Modelled from the spec: canonical media type for OWL2 XML. -/
def APPLICATION_OWL_XML : MediaType := ⟨"application/owl+xml"⟩

/-- Modelled from the spec: canonical media type for RDF/XML. -/
def APPLICATION_RDF_XML : MediaType := ⟨"application/rdf+xml"⟩

/-- Modelled from the spec: canonical media type for TriG. -/
def APPLICATION_TRIG : MediaType := ⟨"application/trig"⟩

/-- Modelled from the spec: canonical media type for Turtle. -/
def TEXT_TURTLE : MediaType := ⟨"text/turtle"⟩

/-- Modelled from the spec: canonical media type for XHTML+RDFa. -/
def APPLICATION_XHTML_XML : MediaType := ⟨"application/xhtml+xml"⟩

end media_type

/-- Embeds `Correspondent<T>` (correspondence.rs): a correspondent value
qualified by whether the correspondence is total. -/
structure Correspondent (T : Type) where
  value : T
  is_total : Bool
deriving DecidableEq, Repr

/-- Models `HashMap` built by in-order `insert` calls: lookup returns the value
of the last inserted entry with the given key (later inserts overwrite earlier
ones), `none` when the key was never inserted. -/
def hashMapGet {K V : Type} [DecidableEq K] (entries : List (K × V)) (k : K) : Option V :=
  (entries.reverse.find? (fun e => decide (e.1 = k))).map (fun e => e.2)

/-- Embeds the insertions building `EXTENSION_TO_SYNTAX_CORRESPONDENCE`
(correspondence.rs lines 61-102), in source order. -/
def EXTENSION_TO_SYNTAX_CORRESPONDENCE : List (FileExtension × Correspondent RdfSyntaxId) :=
  [ (file_extension.HTML, ⟨.htmlRdfa, false⟩),
    (file_extension.JSONLD, ⟨.jsonLd, true⟩),
    (file_extension.JSON, ⟨.jsonLd, false⟩),
    (file_extension.N3, ⟨.n3, true⟩),
    (file_extension.NQ, ⟨.nQuads, true⟩),
    (file_extension.NQUADS, ⟨.nQuads, true⟩),
    (file_extension.NT, ⟨.nTriples, true⟩),
    (file_extension.NTRIPLES, ⟨.nTriples, true⟩),
    (file_extension.OMN, ⟨.owl2Manchester, true⟩),
    (file_extension.OWL, ⟨.owl2Xml, true⟩),
    (file_extension.OWX, ⟨.owl2Xml, true⟩),
    (file_extension.RDF, ⟨.rdfXml, true⟩),
    (file_extension.RDFXML, ⟨.rdfXml, true⟩),
    (file_extension.TRIG, ⟨.triG, true⟩),
    (file_extension.TTL, ⟨.turtle, true⟩),
    (file_extension.TURTLE, ⟨.turtle, true⟩),
    (file_extension.XHTML, ⟨.xhtmlRdfa, false⟩) ]

/-- Embeds the insertions building `MEDIA_TYPE_TO_SYNTAX_CORRESPONDENCE`
(correspondence.rs lines 137-166), in source order. -/
def MEDIA_TYPE_TO_SYNTAX_CORRESPONDENCE : List (MediaType × Correspondent RdfSyntaxId) :=
  [ (media_type.TEXT_HTML, ⟨.htmlRdfa, false⟩),
    (media_type.APPLICATION_JSON_LD, ⟨.jsonLd, true⟩),
    (media_type.TEXT_N3, ⟨.n3, true⟩),
    (media_type.APPLICATION_N_QUADS, ⟨.nQuads, true⟩),
    (media_type.APPLICATION_N_TRIPLES, ⟨.nTriples, true⟩),
    (media_type.TEXT_OWL_MANCHESTER, ⟨.owl2Manchester, true⟩),
    (media_type.APPLICATION_RDF_XML, ⟨.rdfXml, true⟩),
    (media_type.APPLICATION_OWL_XML, ⟨.owl2Xml, true⟩),
    (media_type.APPLICATION_TRIG, ⟨.triG, true⟩),
    (media_type.TEXT_TURTLE, ⟨.turtle, true⟩),
    (media_type.APPLICATION_XHTML_XML, ⟨.xhtmlRdfa, false⟩) ]

/-- Embeds `NonRdfMediaTypeError` (correspondence.rs): carries the offending
media type. -/
structure NonRdfMediaTypeError where
  val : MediaType
deriving DecidableEq, Repr

/-- Embeds `NonRdfFileExtensionError` (correspondence.rs): carries the offending
file extension. -/
structure NonRdfFileExtensionError where
  val : FileExtension
deriving DecidableEq, Repr

/-- Embeds `TryFrom<&mime::Mime> for Correspondent<RdfSyntax>` (correspondence.rs
lines 178-198): table lookup, cloning the correspondent on a hit and returning
`NonRdfMediaTypeError` carrying the key on a miss. -/
def try_from_media_type (mt : MediaType) : Except NonRdfMediaTypeError (Correspondent RdfSyntaxId) :=
  match hashMapGet MEDIA_TYPE_TO_SYNTAX_CORRESPONDENCE mt with
  | some correspondent => .ok correspondent
  | none => .error ⟨mt⟩

/-- Embeds `TryFrom<&FileExtension> for Correspondent<RdfSyntax>`
(correspondence.rs lines 200-220): table lookup, cloning the correspondent on a
hit and returning `NonRdfFileExtensionError` carrying the key on a miss. -/
def try_from_file_extension (fe : FileExtension) : Except NonRdfFileExtensionError (Correspondent RdfSyntaxId) :=
  match hashMapGet EXTENSION_TO_SYNTAX_CORRESPONDENCE fe with
  | some correspondent => .ok correspondent
  | none => .error ⟨fe⟩

/-- Embeds `UnKnownSyntaxError` declared in the crate's `syntax` module (used by
parser/_inner/mod.rs and both parser factories): carries the offending syntax
value. -/
structure UnKnownSyntaxError where
  val : RdfSyntaxId
deriving DecidableEq, Repr

/-- Embeds `InnerParser` (parser/_inner/mod.rs): the sum type over the five
engine parsers; `NQuadsParser` and `NTriplesParser` carry no configuration,
while the RDF/XML, TriG and Turtle engines carry their optional base IRI. -/
inductive InnerParser : Type
  | nQuads
  | nTriples
  | rdfXml : Option String → InnerParser
  | triG : Option String → InnerParser
  | turtle : Option String → InnerParser
deriving DecidableEq, Repr

/-- Embeds `InnerParser::try_new` (parser/_inner/mod.rs lines 59-68): constructs
the engine matching the syntax, forwarding `base_iri` to RDF/XML, TriG and
Turtle; every other syntax yields `UnKnownSyntaxError` carrying it. -/
def InnerParser.try_new (syn : RdfSyntaxId) (base_iri : Option String) :
    Except UnKnownSyntaxError InnerParser :=
  match syn with
  | .nQuads => .ok .nQuads
  | .nTriples => .ok .nTriples
  | .rdfXml => .ok (.rdfXml base_iri)
  | .triG => .ok (.triG base_iri)
  | .turtle => .ok (.turtle base_iri)
  | s => .error ⟨s⟩

/-- Embeds `DynSynQuadParser` (parser/quads/mod.rs): an inner engine handle plus
the optional graph-name term used when adapting triples to quads. -/
structure DynSynQuadParser (T : Type) where
  inner_engine : InnerParser
  triple_source_adapted_graph_iri : Option T
deriving DecidableEq, Repr

/-- Embeds `DynSynQuadParser::try_new` (parser/quads/mod.rs lines 83-94), which
`DynSynQuadParserFactory::try_new_parser` forwards to: builds the inner parser
and stores the graph term; fails exactly when `InnerParser::try_new` fails. -/
def DynSynQuadParser.try_new {T : Type} (syn : RdfSyntaxId) (base_iri : Option String)
    (triple_source_adapted_graph_iri : Option T) :
    Except UnKnownSyntaxError (DynSynQuadParser T) :=
  (InnerParser.try_new syn base_iri).map
    (fun p => ⟨p, triple_source_adapted_graph_iri⟩)

/-- Embeds `DynSynTripleParser` (parser/triples/mod.rs): an inner engine handle
plus the optional graph-name term used when adapting quads to triples. -/
structure DynSynTripleParser (T : Type) where
  inner_engine : InnerParser
  quad_source_adapted_graph_iri : Option T
deriving DecidableEq, Repr

/-- Embeds `DynSynTripleParser::try_new` (parser/triples/mod.rs), which
`DynSynTripleParserFactory::try_new_parser` forwards to: builds the inner
parser and stores the graph term; fails exactly when `InnerParser::try_new`
fails. -/
def DynSynTripleParser.try_new {T : Type} (syn : RdfSyntaxId) (base_iri : Option String)
    (quad_source_adapted_graph_iri : Option T) :
    Except UnKnownSyntaxError (DynSynTripleParser T) :=
  (InnerParser.try_new syn base_iri).map
    (fun p => ⟨p, quad_source_adapted_graph_iri⟩)

/-- Models the crate's use of `type_map::concurrent::TypeMap` for serializer
configuration: a type-indexed map restricted to the five engine configuration
types the serializer factories ever query (`NqConfig`, `TrigConfig`,
`NtConfig`, `TurtleConfig`, `RdfXmlConfig`). The configuration types themselves
are external black boxes (spec section 1), so the map is parametric in them;
one slot per type, `none` when no value of that type was registered. -/
structure TypeMap (CNq CTrig CNt CTtl CXml : Type) where
  nq_config : Option CNq
  trig_config : Option CTrig
  nt_config : Option CNt
  turtle_config : Option CTtl
  rdf_xml_config : Option CXml
deriving DecidableEq, Repr

/-- Models `TypeMap::new`: the empty type-indexed map. -/
def TypeMap.empty {CNq CTrig CNt CTtl CXml : Type} : TypeMap CNq CTrig CNt CTtl CXml :=
  ⟨none, none, none, none, none⟩

/-- Models sophia's `NqSerializer::new_with_config` result: an engine instance
owning the sink and the configuration it was constructed with (the engine
itself is an external black box per spec section 1). -/
structure NqSerializer (W C : Type) where
  write : W
  config : C
deriving DecidableEq, Repr

/-- Models sophia's `TrigSerializer::new_with_config` result. -/
structure TrigSerializer (W C : Type) where
  write : W
  config : C
deriving DecidableEq, Repr

/-- Models sophia's `NtSerializer::new_with_config` result. -/
structure NtSerializer (W C : Type) where
  write : W
  config : C
deriving DecidableEq, Repr

/-- Models sophia's `TurtleSerializer::new_with_config` result. -/
structure TurtleSerializer (W C : Type) where
  write : W
  config : C
deriving DecidableEq, Repr

/-- Models sophia's `RdfXmlSerializer::new_with_config` result. -/
structure RdfXmlSerializer (W C : Type) where
  write : W
  config : C
deriving DecidableEq, Repr

/-- Embeds `InnerQuadSerializer` (serializer/_inner/mod.rs): the sum type over
the quad-writer engines, N-Quads and TriG. -/
inductive InnerQuadSerializer (W CNq CTrig : Type) : Type
  | nQuads : NqSerializer W CNq → InnerQuadSerializer W CNq CTrig
  | trig : TrigSerializer W CTrig → InnerQuadSerializer W CNq CTrig
deriving DecidableEq, Repr

/-- Embeds `InnerTripleSerializer` (serializer/_inner/mod.rs): the sum type over
the triple-writer engines, N-Triples, Turtle and RDF/XML. -/
inductive InnerTripleSerializer (W CNt CTtl CXml : Type) : Type
  | nTriples : NtSerializer W CNt → InnerTripleSerializer W CNt CTtl CXml
  | turtle : TurtleSerializer W CTtl → InnerTripleSerializer W CNt CTtl CXml
  | rdfXml : RdfXmlSerializer W CXml → InnerTripleSerializer W CNt CTtl CXml
deriving DecidableEq, Repr

/-- Embeds `DynSynQuadSerializer` (serializer/quads/mod.rs): wraps one inner
quad-writer engine. -/
structure DynSynQuadSerializer (W CNq CTrig : Type) where
  inner_serializer : InnerQuadSerializer W CNq CTrig
deriving DecidableEq, Repr

/-- Embeds `DynSynTripleSerializer` (serializer/triples/mod.rs): wraps one inner
triple-writer engine. -/
structure DynSynTripleSerializer (W CNt CTtl CXml : Type) where
  inner_serializer : InnerTripleSerializer W CNt CTtl CXml
deriving DecidableEq, Repr

/-- Embeds `DynSynQuadSerializerFactory` (serializer/quads/mod.rs): holds the
type-indexed configuration registry. -/
structure DynSynQuadSerializerFactory (CNq CTrig CNt CTtl CXml : Type) where
  serializer_config_map : TypeMap CNq CTrig CNt CTtl CXml
deriving DecidableEq, Repr

/-- Embeds `DynSynQuadSerializerFactory::new` (serializer/quads/mod.rs lines
131-141): stores the given map, substituting a fresh empty map for `None`. -/
def DynSynQuadSerializerFactory.new {CNq CTrig CNt CTtl CXml : Type}
    (serializer_config_map : Option (TypeMap CNq CTrig CNt CTtl CXml)) :
    DynSynQuadSerializerFactory CNq CTrig CNt CTtl CXml :=
  ⟨match serializer_config_map with
    | some v => v
    | none => TypeMap.empty⟩

/-- Embeds `DynSynQuadSerializerFactory::get_config::<NqConfig>`
(serializer/quads/mod.rs lines 143-148): the registered value of that type if
present, otherwise the type's default. -/
def DynSynQuadSerializerFactory.get_nq_config {CNq CTrig CNt CTtl CXml : Type} [Inhabited CNq]
    (f : DynSynQuadSerializerFactory CNq CTrig CNt CTtl CXml) : CNq :=
  f.serializer_config_map.nq_config.getD default

/-- Embeds `DynSynQuadSerializerFactory::get_config::<TrigConfig>`. -/
def DynSynQuadSerializerFactory.get_trig_config {CNq CTrig CNt CTtl CXml : Type} [Inhabited CTrig]
    (f : DynSynQuadSerializerFactory CNq CTrig CNt CTtl CXml) : CTrig :=
  f.serializer_config_map.trig_config.getD default

/-- Embeds `DynSynQuadSerializerFactory::try_new_serializer`
(serializer/quads/mod.rs lines 155-169): N-Quads and TriG get their engine,
constructed over the sink with the configuration from the registry; every other
syntax yields `UnKnownSyntaxError` carrying it. -/
def DynSynQuadSerializerFactory.try_new_serializer {W CNq CTrig CNt CTtl CXml : Type}
    [Inhabited CNq] [Inhabited CTrig]
    (f : DynSynQuadSerializerFactory CNq CTrig CNt CTtl CXml)
    (syn : RdfSyntaxId) (write : W) :
    Except UnKnownSyntaxError (DynSynQuadSerializer W CNq CTrig) :=
  match syn with
  | .nQuads => .ok ⟨.nQuads ⟨write, f.get_nq_config⟩⟩
  | .triG => .ok ⟨.trig ⟨write, f.get_trig_config⟩⟩
  | s => .error ⟨s⟩

/-- Embeds `DynSynTripleSerializerFactory` (serializer/triples/mod.rs): holds
the type-indexed configuration registry. -/
structure DynSynTripleSerializerFactory (CNq CTrig CNt CTtl CXml : Type) where
  serializer_config_map : TypeMap CNq CTrig CNt CTtl CXml
deriving DecidableEq, Repr

/-- Embeds `DynSynTripleSerializerFactory::new` (serializer/triples/mod.rs lines
134-144): stores the given map, substituting a fresh empty map for `None`. -/
def DynSynTripleSerializerFactory.new {CNq CTrig CNt CTtl CXml : Type}
    (serializer_config_map : Option (TypeMap CNq CTrig CNt CTtl CXml)) :
    DynSynTripleSerializerFactory CNq CTrig CNt CTtl CXml :=
  ⟨match serializer_config_map with
    | some v => v
    | none => TypeMap.empty⟩

/-- Embeds `DynSynTripleSerializerFactory::get_config::<NtConfig>`
(serializer/triples/mod.rs lines 146-151). -/
def DynSynTripleSerializerFactory.get_nt_config {CNq CTrig CNt CTtl CXml : Type} [Inhabited CNt]
    (f : DynSynTripleSerializerFactory CNq CTrig CNt CTtl CXml) : CNt :=
  f.serializer_config_map.nt_config.getD default

/-- Embeds `DynSynTripleSerializerFactory::get_config::<TurtleConfig>`. -/
def DynSynTripleSerializerFactory.get_turtle_config {CNq CTrig CNt CTtl CXml : Type}
    [Inhabited CTtl] (f : DynSynTripleSerializerFactory CNq CTrig CNt CTtl CXml) : CTtl :=
  f.serializer_config_map.turtle_config.getD default

/-- Embeds `DynSynTripleSerializerFactory::get_config::<RdfXmlConfig>`. -/
def DynSynTripleSerializerFactory.get_rdf_xml_config {CNq CTrig CNt CTtl CXml : Type}
    [Inhabited CXml] (f : DynSynTripleSerializerFactory CNq CTrig CNt CTtl CXml) : CXml :=
  f.serializer_config_map.rdf_xml_config.getD default

/-- Embeds `DynSynTripleSerializerFactory::try_new_serializer`
(serializer/triples/mod.rs lines 158-178): N-Triples, Turtle and RDF/XML get
their engine, constructed over the sink with the configuration from the
registry; every other syntax yields `UnKnownSyntaxError` carrying it. -/
def DynSynTripleSerializerFactory.try_new_serializer {W CNq CTrig CNt CTtl CXml : Type}
    [Inhabited CNt] [Inhabited CTtl] [Inhabited CXml]
    (f : DynSynTripleSerializerFactory CNq CTrig CNt CTtl CXml)
    (syn : RdfSyntaxId) (write : W) :
    Except UnKnownSyntaxError (DynSynTripleSerializer W CNt CTtl CXml) :=
  match syn with
  | .nTriples => .ok ⟨.nTriples ⟨write, f.get_nt_config⟩⟩
  | .turtle => .ok ⟨.turtle ⟨write, f.get_turtle_config⟩⟩
  | .rdfXml => .ok ⟨.rdfXml ⟨write, f.get_rdf_xml_config⟩⟩
  | s => .error ⟨s⟩

/-- Models `rio_turtle::TurtleError` (an external engine's error type, a black
box per spec section 1): an opaque diagnostic payload. -/
structure TurtleError where
  message : String
deriving DecidableEq, Repr

/-- Models `rio_xml::RdfXmlError` (an external engine's error type, a black box
per spec section 1): an opaque diagnostic payload. -/
structure RdfXmlError where
  message : String
deriving DecidableEq, Repr

/-- Embeds `InnerParseError` (parser/_inner/errors.rs): the sum type over the
distinct concrete engine error types, Turtle and RDF/XML. -/
inductive InnerParseError : Type
  | turtle : TurtleError → InnerParseError
  | rdfXml : RdfXmlError → InnerParseError
deriving DecidableEq, Repr

/-- Embeds `SomeHowParseError` (parser/errors.rs): the unified parse error,
wrapping an `InnerParseError`. -/
structure SomeHowParseError where
  val : InnerParseError
deriving DecidableEq, Repr

/-- Embeds `impl From<TurtleError> for SomeHowParseError` (parser/errors.rs
lines 17-21). -/
def SomeHowParseError.from_turtle_error (e : TurtleError) : SomeHowParseError :=
  ⟨.turtle e⟩

/-- Embeds `impl From<RdfXmlError> for SomeHowParseError` (parser/errors.rs
lines 23-27). -/
def SomeHowParseError.from_rdf_xml_error (e : RdfXmlError) : SomeHowParseError :=
  ⟨.rdfXml e⟩

/-- Embeds sophia's `StreamError<SourceErr, SinkErr>`: either a source (parse)
error or a sink (consumer) error. -/
inductive StreamError (SourceErr SinkErr : Type) : Type
  | sourceError : SourceErr → StreamError SourceErr SinkErr
  | sinkError : SinkErr → StreamError SourceErr SinkErr
deriving DecidableEq, Repr

/-- Reports whether a stream error is a source error (used to state that
adaptation never conflates the two sides). -/
def StreamError.isSource {SourceErr SinkErr : Type} :
    StreamError SourceErr SinkErr → Bool
  | .sourceError _ => true
  | .sinkError _ => false

/-- Embeds `adapt_quads_stream_error` (parser/errors.rs lines 32-43): marshals
the source-error variant through the engine error's `Into<SomeHowParseError>`
conversion (passed here explicitly as `into`) and passes the sink-error variant
through unchanged. -/
def adapt_quads_stream_error {SourceErr SinkErr : Type}
    (into : SourceErr → SomeHowParseError) :
    StreamError SourceErr SinkErr → StreamError SomeHowParseError SinkErr
  | .sourceError ev => .sourceError (into ev)
  | .sinkError ev => .sinkError ev

/-- Embeds `adapt_stream_result` (parser/errors.rs lines 47-58): `Ok` passes
through, `Err` is adapted by `adapt_quads_stream_error`. -/
def adapt_stream_result {V SourceErr SinkErr : Type}
    (into : SourceErr → SomeHowParseError) :
    Except (StreamError SourceErr SinkErr) V →
      Except (StreamError SomeHowParseError SinkErr) V
  | .ok v => .ok v
  | .error e => .error (adapt_quads_stream_error into e)

/-- Embeds the statement shape `SliceTriple<T>` = `[T; 3]`
(parser/triples/source.rs): subject, predicate, object. -/
structure RdfTriple (T : Type) where
  s : T
  p : T
  o : T
deriving DecidableEq, Repr

/-- Embeds the statement shape `TupleQuad<T>` = `([T; 3], Option<T>)`
(parser/quads/source.rs): subject, predicate, object and optional graph name
(`none` denoting the default graph). -/
structure RdfQuad (T : Type) where
  s : T
  p : T
  o : T
  g : Option T
deriving DecidableEq, Repr

/-- Models sophia's `term_eq` (an external callee): term-value equality; terms
are required only to be comparable by value (spec section 3), modelled by
decidable equality. -/
def term_eq {T : Type} [DecidableEq T] (a b : T) : Bool :=
  decide (a = b)

/-- Embeds the graph-membership test inlined in
`try_for_some_triple_adapted_from_rio_quad_source` (parser/triples/source.rs
lines 54-58): a quad is in the configured graph when its graph name and the
configured `quad_source_adapted_graph_iri` are both present and term-equal, or
both absent. -/
def quad_in_graph {T : Type} [DecidableEq T]
    (g quad_source_adapted_graph_iri : Option T) : Bool :=
  match g, quad_source_adapted_graph_iri with
  | some a2, some b2 => term_eq a2 b2
  | none, none => true
  | _, _ => false

/-- Models sophia_rio's `StrictRioSource` (an external collaborator): a lazy
statement source, modelled as the finite sequence of statements the engine
yields followed by an optional terminal source error. -/
structure StrictRioSource (St PErr : Type) where
  statements : List St
  terminal_error : Option PErr
deriving DecidableEq, Repr

/-- Runs an `FnMut` callback over a statement list; the callback's captured
mutable state is threaded explicitly as `σ`; the first callback failure aborts
the run. -/
def runCallback {St σ E : Type} (f : σ → St → Except E σ) :
    List St → σ → Except E σ
  | [], st => .ok st
  | q :: qs, st =>
    match f st q with
    | .ok st2 => runCallback f qs st2
    | .error e => .error e

/-- Models driving a rio source's `try_for_some_quad`/`try_for_some_triple`
to exhaustion with a callback: statements are delivered in order; a callback
failure surfaces as a sink error; the engine's terminal error surfaces as a
source error after the delivered statements. -/
def StrictRioSource.drive {St σ PErr E : Type} (src : StrictRioSource St PErr)
    (f : σ → St → Except E σ) (st : σ) : Except (StreamError PErr E) σ :=
  match runCallback f src.statements st with
  | .error e => .error (.sinkError e)
  | .ok st2 =>
    match src.terminal_error with
    | some pe => .error (.sourceError pe)
    | none => .ok st2

/-- Embeds `InnerStatementSource` (parser/_inner/source.rs): the sum type over
the five engines' streaming sources; N-Quads and TriG are quad sources, the
rest are triple sources; all but RDF/XML fail with `TurtleError`. -/
inductive InnerStatementSource (T : Type) : Type
  | fNQuads : StrictRioSource (RdfQuad T) TurtleError → InnerStatementSource T
  | fTriG : StrictRioSource (RdfQuad T) TurtleError → InnerStatementSource T
  | fNTriples : StrictRioSource (RdfTriple T) TurtleError → InnerStatementSource T
  | fTurtle : StrictRioSource (RdfTriple T) TurtleError → InnerStatementSource T
  | fRdfXml : StrictRioSource (RdfTriple T) RdfXmlError → InnerStatementSource T

/-- Embeds `DynSynTripleSource` (parser/triples/source.rs lines 28-31): an
underlying statement source plus the configured graph term for quad-to-triple
adaptation. -/
structure DynSynTripleSource (T : Type) where
  inner_source : InnerStatementSource T
  quad_source_adapted_graph_iri : Option T

/-- Embeds `DynSynTripleSource::try_for_some_triple_adapted_from_rio_quad_source`
(parser/triples/source.rs lines 42-65): drives the quad source with a closure
that forwards a quad as a triple of its subject, predicate and object exactly
when `quad_in_graph` holds of its graph name, skips it otherwise, and adapts
the stream error. -/
def DynSynTripleSource.try_for_some_triple_adapted_from_rio_quad_source
    {T σ E PErr : Type} [DecidableEq T] (into : PErr → SomeHowParseError)
    (qs : StrictRioSource (RdfQuad T) PErr)
    (f : σ → RdfTriple T → Except E σ)
    (quad_source_adapted_graph_iri : Option T) (st : σ) :
    Except (StreamError SomeHowParseError E) σ :=
  adapt_stream_result into (qs.drive
    (fun st2 q =>
      let in_graph := quad_in_graph q.g quad_source_adapted_graph_iri
      if !in_graph then .ok st2
      else f st2 ⟨q.s, q.p, q.o⟩) st)

/-- Embeds `DynSynTripleSource::try_for_some_triple_adapted_from_rio_triple_source`
(parser/triples/source.rs lines 71-85): drives the triple source, forwarding
each triple's copied terms, and adapts the stream error. -/
def DynSynTripleSource.try_for_some_triple_adapted_from_rio_triple_source
    {T σ E PErr : Type} (into : PErr → SomeHowParseError)
    (ts : StrictRioSource (RdfTriple T) PErr)
    (f : σ → RdfTriple T → Except E σ) (st : σ) :
    Except (StreamError SomeHowParseError E) σ :=
  adapt_stream_result into (ts.drive
    (fun st2 t => f st2 ⟨t.s, t.p, t.o⟩) st)

/-- Embeds `TripleSource::try_for_some_triple` for `DynSynTripleSource`
(parser/triples/source.rs lines 107-141): dispatches on the inner source,
adapting from the quad engines (N-Quads, TriG) with the configured graph term
and passing the triple engines through. -/
def DynSynTripleSource.try_for_some_triple {T σ E : Type} [DecidableEq T]
    (src : DynSynTripleSource T) (f : σ → RdfTriple T → Except E σ) (st : σ) :
    Except (StreamError SomeHowParseError E) σ :=
  match src.inner_source with
  | .fNQuads qs =>
    DynSynTripleSource.try_for_some_triple_adapted_from_rio_quad_source
      SomeHowParseError.from_turtle_error qs f src.quad_source_adapted_graph_iri st
  | .fTriG qs =>
    DynSynTripleSource.try_for_some_triple_adapted_from_rio_quad_source
      SomeHowParseError.from_turtle_error qs f src.quad_source_adapted_graph_iri st
  | .fNTriples ts =>
    DynSynTripleSource.try_for_some_triple_adapted_from_rio_triple_source
      SomeHowParseError.from_turtle_error ts f st
  | .fTurtle ts =>
    DynSynTripleSource.try_for_some_triple_adapted_from_rio_triple_source
      SomeHowParseError.from_turtle_error ts f st
  | .fRdfXml ts =>
    DynSynTripleSource.try_for_some_triple_adapted_from_rio_triple_source
      SomeHowParseError.from_rdf_xml_error ts f st

/-- Embeds `DynSynQuadSource` (parser/quads/source.rs lines 31-34): an
underlying statement source plus the configured graph term for triple-to-quad
adaptation. -/
structure DynSynQuadSource (T : Type) where
  inner_source : InnerStatementSource T
  triple_source_graph_iri : Option T

/-- Embeds `DynSynQuadSource::try_for_some_quad_adapted_from_rio_quad_source`
(parser/quads/source.rs lines 42-60): drives the quad source, forwarding each
quad's copied terms and graph name, and adapts the stream error. -/
def DynSynQuadSource.try_for_some_quad_adapted_from_rio_quad_source
    {T σ E PErr : Type} (into : PErr → SomeHowParseError)
    (qs : StrictRioSource (RdfQuad T) PErr)
    (f : σ → RdfQuad T → Except E σ) (st : σ) :
    Except (StreamError SomeHowParseError E) σ :=
  adapt_stream_result into (qs.drive
    (fun st2 q => f st2 ⟨q.s, q.p, q.o, q.g.bind (fun gv => some gv)⟩) st)

/-- Embeds `DynSynQuadSource::try_for_some_quad_adapted_from_rio_triple_source`
(parser/quads/source.rs lines 70-88): drives the triple source with a closure
that forwards each triple as a quad whose graph name is the configured
`triple_source_graph_iri` and whose remaining terms are the triple's, and
adapts the stream error. -/
def DynSynQuadSource.try_for_some_quad_adapted_from_rio_triple_source
    {T σ E PErr : Type} (into : PErr → SomeHowParseError)
    (ts : StrictRioSource (RdfTriple T) PErr)
    (f : σ → RdfQuad T → Except E σ)
    (triple_source_graph_iri : Option T) (st : σ) :
    Except (StreamError SomeHowParseError E) σ :=
  adapt_stream_result into (ts.drive
    (fun st2 t =>
      f st2 ⟨t.s, t.p, t.o, triple_source_graph_iri.bind (fun gv => some gv)⟩) st)

/-- Embeds `QuadSource::try_for_some_quad` for `DynSynQuadSource`
(parser/quads/source.rs lines 110-148): dispatches on the inner source, passing
the quad engines through and adapting from the triple engines (N-Triples,
Turtle, RDF/XML) with the configured graph term. -/
def DynSynQuadSource.try_for_some_quad {T σ E : Type}
    (src : DynSynQuadSource T) (f : σ → RdfQuad T → Except E σ) (st : σ) :
    Except (StreamError SomeHowParseError E) σ :=
  match src.inner_source with
  | .fNQuads qs =>
    DynSynQuadSource.try_for_some_quad_adapted_from_rio_quad_source
      SomeHowParseError.from_turtle_error qs f st
  | .fTriG qs =>
    DynSynQuadSource.try_for_some_quad_adapted_from_rio_quad_source
      SomeHowParseError.from_turtle_error qs f st
  | .fNTriples ts =>
    DynSynQuadSource.try_for_some_quad_adapted_from_rio_triple_source
      SomeHowParseError.from_turtle_error ts f src.triple_source_graph_iri st
  | .fTurtle ts =>
    DynSynQuadSource.try_for_some_quad_adapted_from_rio_triple_source
      SomeHowParseError.from_turtle_error ts f src.triple_source_graph_iri st
  | .fRdfXml ts =>
    DynSynQuadSource.try_for_some_quad_adapted_from_rio_triple_source
      SomeHowParseError.from_rdf_xml_error ts f src.triple_source_graph_iri st

/-! ## Theorems about the correspondence registry and file extensions -/

/-- Claim C10: `FileExtension::from_path_str` returns `none` exactly when the
path has no extension component (the invalid-UTF-8 case being vacuous for UTF-8
modelled paths); when it returns `some`, the wrapped string is the path's
extension component verbatim, with no normalization; `FileExtension::from`
wraps its input unchanged, so two `FileExtension` values are equal iff their
strings are equal. Concrete cases pin the behavior down, including absence of
case folding. -/
theorem c10_from_path_wraps_extension_verbatim :
    (∀ p : String, FileExtension.from_path_str p = Option.map FileExtension.from_string (pathExtension p))
    ∧ (∀ p : String, (FileExtension.from_path_str p).isNone = (pathExtension p).isNone)
    ∧ (∀ s : String, (FileExtension.from_string s).val = s)
    ∧ (∀ a b : String, FileExtension.from_string a = FileExtension.from_string b ↔ a = b)
    ∧ FileExtension.from_path_str ("dir/a.ttl") = some ⟨"ttl"⟩
    ∧ FileExtension.from_path_str ("noext") = none
    ∧ FileExtension.from_path_str (".bashrc") = none
    ∧ FileExtension.from_path_str ("archive.tar.gz") = some ⟨"gz"⟩
    ∧ FileExtension.from_path_str ("DIR/FILE.TTL") = some ⟨"TTL"⟩ := by
  refine ⟨fun p => rfl, fun p => ?_, fun s => rfl, fun a b => ?_, ?_, ?_, ?_, ?_, ?_⟩
  · cases h : pathExtension p <;> simp [FileExtension.from_path_str, h]
  · constructor
    · intro h
      exact congrArg FileExtension.val h
    · intro h
      exact congrArg FileExtension.from_string h
  · decide
  · decide
  · decide
  · decide
  · decide

/-- Claim C4 (code evaluation at the failing input): the secondary spelling
`"ntriples"` is absent from the extension table, because the source constant
`NTRIPLES` is defined as `"ttl"`; that constant therefore resolves to Turtle
(the later `TTL` insertion overwrites it), not N-Triples. The remaining
secondary spellings `"nquads"`, `"rdfxml"`, `"owx"`, `"turtle"` do resolve to
their canonical syntaxes with total correspondence, and `"json"` resolves to
JSON-LD with partial correspondence. -/
theorem c4_ntriples_spelling_absent_from_extension_table :
    hashMapGet EXTENSION_TO_SYNTAX_CORRESPONDENCE ⟨"ntriples"⟩ = none
    ∧ try_from_file_extension ⟨"ntriples"⟩ = .error ⟨⟨"ntriples"⟩⟩
    ∧ file_extension.NTRIPLES = file_extension.TTL
    ∧ try_from_file_extension file_extension.NTRIPLES = .ok ⟨.turtle, true⟩
    ∧ try_from_file_extension ⟨"nquads"⟩ = .ok ⟨.nQuads, true⟩
    ∧ try_from_file_extension ⟨"rdfxml"⟩ = .ok ⟨.rdfXml, true⟩
    ∧ try_from_file_extension ⟨"owx"⟩ = .ok ⟨.owl2Xml, true⟩
    ∧ try_from_file_extension ⟨"turtle"⟩ = .ok ⟨.turtle, true⟩
    ∧ try_from_file_extension ⟨"json"⟩ = .ok ⟨.jsonLd, false⟩ := by
  decide

set_option maxRecDepth 8192 in
/-- Claim C5: every canonical (extension, syntax) and (media type, syntax) pair
of the spec section 6 table resolves to exactly the stated syntax with the
stated totality flag (partial only for html, xhtml and the secondary json
spelling; total for all syntax-specific keys), and keys in no table (png,
application/pdf) fail to resolve. -/
theorem c5_canonical_table_resolution :
    try_from_file_extension file_extension.TTL = .ok ⟨.turtle, true⟩
    ∧ try_from_file_extension file_extension.NT = .ok ⟨.nTriples, true⟩
    ∧ try_from_file_extension file_extension.NQ = .ok ⟨.nQuads, true⟩
    ∧ try_from_file_extension file_extension.TRIG = .ok ⟨.triG, true⟩
    ∧ try_from_file_extension file_extension.RDF = .ok ⟨.rdfXml, true⟩
    ∧ try_from_file_extension file_extension.JSONLD = .ok ⟨.jsonLd, true⟩
    ∧ try_from_file_extension file_extension.HTML = .ok ⟨.htmlRdfa, false⟩
    ∧ try_from_file_extension file_extension.XHTML = .ok ⟨.xhtmlRdfa, false⟩
    ∧ try_from_file_extension file_extension.OMN = .ok ⟨.owl2Manchester, true⟩
    ∧ try_from_file_extension file_extension.OWL = .ok ⟨.owl2Xml, true⟩
    ∧ try_from_file_extension file_extension.N3 = .ok ⟨.n3, true⟩
    ∧ try_from_media_type media_type.TEXT_TURTLE = .ok ⟨.turtle, true⟩
    ∧ try_from_media_type media_type.APPLICATION_N_TRIPLES = .ok ⟨.nTriples, true⟩
    ∧ try_from_media_type media_type.APPLICATION_N_QUADS = .ok ⟨.nQuads, true⟩
    ∧ try_from_media_type media_type.APPLICATION_TRIG = .ok ⟨.triG, true⟩
    ∧ try_from_media_type media_type.APPLICATION_RDF_XML = .ok ⟨.rdfXml, true⟩
    ∧ try_from_media_type media_type.APPLICATION_JSON_LD = .ok ⟨.jsonLd, true⟩
    ∧ try_from_media_type media_type.TEXT_HTML = .ok ⟨.htmlRdfa, false⟩
    ∧ try_from_media_type media_type.APPLICATION_XHTML_XML = .ok ⟨.xhtmlRdfa, false⟩
    ∧ try_from_media_type media_type.TEXT_OWL_MANCHESTER = .ok ⟨.owl2Manchester, true⟩
    ∧ try_from_media_type media_type.APPLICATION_OWL_XML = .ok ⟨.owl2Xml, true⟩
    ∧ try_from_media_type media_type.TEXT_N3 = .ok ⟨.n3, true⟩
    ∧ try_from_file_extension ⟨"png"⟩ = .error ⟨⟨"png"⟩⟩
    ∧ try_from_media_type ⟨"application/pdf"⟩ = .error ⟨⟨"application/pdf"⟩⟩ := by
  refine ⟨?_, ?_, ?_, ?_, ?_, ?_, ?_, ?_, ?_, ?_, ?_, ?_, ?_, ?_, ?_, ?_, ?_, ?_, ?_,
    ?_, ?_, ?_, ?_, ?_⟩ <;> decide

/-- Claim C6: resolution from a media type or a file extension fails exactly
when the key is absent from the corresponding static table, the returned error
carries the offending key itself, and on success the result is exactly the
table's correspondent (never a placeholder). -/
theorem c6_resolution_fails_iff_key_absent :
    (∀ mt : MediaType,
      (try_from_media_type mt).isOk = (hashMapGet MEDIA_TYPE_TO_SYNTAX_CORRESPONDENCE mt).isSome
      ∧ (try_from_media_type mt = .error ⟨mt⟩
         ∨ ∃ c, hashMapGet MEDIA_TYPE_TO_SYNTAX_CORRESPONDENCE mt = some c
             ∧ try_from_media_type mt = .ok c))
    ∧ (∀ fe : FileExtension,
      (try_from_file_extension fe).isOk = (hashMapGet EXTENSION_TO_SYNTAX_CORRESPONDENCE fe).isSome
      ∧ (try_from_file_extension fe = .error ⟨fe⟩
         ∨ ∃ c, hashMapGet EXTENSION_TO_SYNTAX_CORRESPONDENCE fe = some c
             ∧ try_from_file_extension fe = .ok c)) := by
  constructor
  · intro mt
    cases h : hashMapGet MEDIA_TYPE_TO_SYNTAX_CORRESPONDENCE mt <;>
      simp [try_from_media_type, h, Except.isOk, Except.toBool]
  · intro fe
    cases h : hashMapGet EXTENSION_TO_SYNTAX_CORRESPONDENCE fe <;>
      simp [try_from_file_extension, h, Except.isOk, Except.toBool]

/-- Claim C3: parser construction succeeds for exactly the five syntaxes with a
backing engine (N-Quads, N-Triples, Turtle, TriG, RDF/XML), for any base IRI
and graph-iri arguments, both at `InnerParser::try_new` and through the triple
and quad parser factories; for every other syntax it fails with
`UnKnownSyntaxError` carrying that syntax value. -/
theorem c3_parser_construction_supported_set :
    ∀ (T : Type) (syn : RdfSyntaxId) (b : Option String) (g : Option T),
      ((InnerParser.try_new syn b).isOk = true ↔
        syn = .nQuads ∨ syn = .nTriples ∨ syn = .rdfXml ∨ syn = .triG ∨ syn = .turtle)
      ∧ ((InnerParser.try_new syn b).isOk = true ∨ InnerParser.try_new syn b = .error ⟨syn⟩)
      ∧ (DynSynQuadParser.try_new syn b g).isOk = (InnerParser.try_new syn b).isOk
      ∧ (DynSynTripleParser.try_new syn b g).isOk = (InnerParser.try_new syn b).isOk
      ∧ ((DynSynQuadParser.try_new syn b g).isOk = true
         ∨ DynSynQuadParser.try_new syn b g = .error ⟨syn⟩)
      ∧ ((DynSynTripleParser.try_new syn b g).isOk = true
         ∨ DynSynTripleParser.try_new syn b g = .error ⟨syn⟩) := by
  intro T syn b g
  cases syn <;>
    simp [InnerParser.try_new, DynSynQuadParser.try_new, DynSynTripleParser.try_new,
      Except.map, Except.isOk, Except.toBool]

/-- Claim C8: serializer construction is restricted to the syntaxes with a
writer engine: the quad-serializer factory succeeds exactly for N-Quads and
TriG, the triple-serializer factory exactly for N-Triples, Turtle and RDF/XML,
and every other syntax yields `UnKnownSyntaxError` carrying that syntax. -/
theorem c8_serializer_construction_restricted :
    ∀ (W CNq CTrig CNt CTtl CXml : Type) [Inhabited CNq] [Inhabited CTrig] [Inhabited CNt]
      [Inhabited CTtl] [Inhabited CXml]
      (fq : DynSynQuadSerializerFactory CNq CTrig CNt CTtl CXml)
      (ft : DynSynTripleSerializerFactory CNq CTrig CNt CTtl CXml)
      (syn : RdfSyntaxId) (w : W),
      ((fq.try_new_serializer syn w).isOk = true ↔ syn = .nQuads ∨ syn = .triG)
      ∧ ((fq.try_new_serializer syn w).isOk = true
         ∨ fq.try_new_serializer syn w = .error ⟨syn⟩)
      ∧ ((ft.try_new_serializer syn w).isOk = true
         ↔ syn = .nTriples ∨ syn = .turtle ∨ syn = .rdfXml)
      ∧ ((ft.try_new_serializer syn w).isOk = true
         ∨ ft.try_new_serializer syn w = .error ⟨syn⟩) := by
  intro W CNq CTrig CNt CTtl CXml iNq iTg iNt iTl iX fq ft syn w
  cases syn <;>
    simp [DynSynQuadSerializerFactory.try_new_serializer,
      DynSynTripleSerializerFactory.try_new_serializer, Except.isOk, Except.toBool]

/-- Claim C9: on serializer construction the type-indexed configuration
registry is consulted: the engine for each syntax is built with the registered
configuration value of the exact type that engine expects when present,
otherwise with the type's default; each `get_config` returns the registered
value or the default accordingly; and a factory created with `None` equals one
created with an empty map. -/
theorem c9_config_registry_consulted :
    ∀ (W CNq CTrig CNt CTtl CXml : Type) [Inhabited CNq] [Inhabited CTrig] [Inhabited CNt]
      [Inhabited CTtl] [Inhabited CXml]
      (m : TypeMap CNq CTrig CNt CTtl CXml) (w : W)
      (a : Option CNq) (b : Option CTrig) (n : Option CNt) (t : Option CTtl) (r : Option CXml)
      (c1 : CNq) (c2 : CTrig) (c3 : CNt) (c4 : CTtl) (c5 : CXml),
      (DynSynQuadSerializerFactory.new (some m)).try_new_serializer .nQuads w
        = .ok ⟨.nQuads ⟨w, m.nq_config.getD default⟩⟩
      ∧ (DynSynQuadSerializerFactory.new (some m)).try_new_serializer .triG w
        = .ok ⟨.trig ⟨w, m.trig_config.getD default⟩⟩
      ∧ (DynSynTripleSerializerFactory.new (some m)).try_new_serializer .nTriples w
        = .ok ⟨.nTriples ⟨w, m.nt_config.getD default⟩⟩
      ∧ (DynSynTripleSerializerFactory.new (some m)).try_new_serializer .turtle w
        = .ok ⟨.turtle ⟨w, m.turtle_config.getD default⟩⟩
      ∧ (DynSynTripleSerializerFactory.new (some m)).try_new_serializer .rdfXml w
        = .ok ⟨.rdfXml ⟨w, m.rdf_xml_config.getD default⟩⟩
      ∧ (DynSynQuadSerializerFactory.new (some (TypeMap.mk (some c1) b n t r))).get_nq_config = c1
      ∧ (DynSynQuadSerializerFactory.new (some (TypeMap.mk none b n t r))).get_nq_config
        = (default : CNq)
      ∧ (DynSynQuadSerializerFactory.new (some (TypeMap.mk a (some c2) n t r))).get_trig_config = c2
      ∧ (DynSynQuadSerializerFactory.new (some (TypeMap.mk a none n t r))).get_trig_config
        = (default : CTrig)
      ∧ (DynSynTripleSerializerFactory.new (some (TypeMap.mk a b (some c3) t r))).get_nt_config = c3
      ∧ (DynSynTripleSerializerFactory.new (some (TypeMap.mk a b none t r))).get_nt_config
        = (default : CNt)
      ∧ (DynSynTripleSerializerFactory.new (some (TypeMap.mk a b n (some c4) r))).get_turtle_config
        = c4
      ∧ (DynSynTripleSerializerFactory.new (some (TypeMap.mk a b n none r))).get_turtle_config
        = (default : CTtl)
      ∧ (DynSynTripleSerializerFactory.new (some (TypeMap.mk a b n t (some c5)))).get_rdf_xml_config
        = c5
      ∧ (DynSynTripleSerializerFactory.new (some (TypeMap.mk a b n t none))).get_rdf_xml_config
        = (default : CXml)
      ∧ DynSynQuadSerializerFactory.new (none : Option (TypeMap CNq CTrig CNt CTtl CXml))
        = DynSynQuadSerializerFactory.new (some TypeMap.empty)
      ∧ DynSynTripleSerializerFactory.new (none : Option (TypeMap CNq CTrig CNt CTtl CXml))
        = DynSynTripleSerializerFactory.new (some TypeMap.empty) := by
  intro W CNq CTrig CNt CTtl CXml iNq iTg iNt iTl iX m w a b n t r c1 c2 c3 c4 c5
  exact ⟨rfl, rfl, rfl, rfl, rfl, rfl, rfl, rfl, rfl, rfl, rfl, rfl, rfl, rfl, rfl, rfl, rfl⟩

/-- Helper: the inlined graph-membership test equals value equality of the two
optional graph terms, with both-absent counting as equal. -/
theorem quad_in_graph_eq_decide {T : Type} [DecidableEq T] (g cfg : Option T) :
    quad_in_graph g cfg = decide (g = cfg) := by
  cases g <;> cases cfg <;> simp [quad_in_graph, term_eq]

/-- Helper: running a filtering-and-mapping callback over a statement list
accumulates exactly the mapped image of the statements passing the filter, in
order, with no error. -/
theorem runCallback_filter_map_acc {St Out E : Type} (pcond : St → Bool) (h : St → Out)
    (xs : List St) (acc : List Out) :
    runCallback (fun st2 x =>
      if pcond x = false then (Except.ok st2 : Except E (List Out))
      else .ok (st2 ++ [h x])) xs acc
    = .ok (acc ++ (xs.filter pcond).map h) := by
  induction xs generalizing acc with
  | nil => simp [runCallback]
  | cons x xs ih =>
    cases hp : pcond x
    · simp [runCallback, hp, ih]
    · simp [runCallback, hp, ih]

/-- Helper: running a mapping callback over a statement list accumulates
exactly the mapped statements, in order, with no error. -/
theorem runCallback_map_acc {St Out E : Type} (h : St → Out) (xs : List St)
    (acc : List Out) :
    runCallback (fun st2 x => (Except.ok (st2 ++ [h x]) : Except E (List Out))) xs acc
    = .ok (acc ++ xs.map h) := by
  induction xs generalizing acc with
  | nil => simp [runCallback]
  | cons x xs ih => simp [runCallback, ih]

/-- Claim C7: the stream-error adaptation is total and variant-preserving: each
engine-specific source error (Turtle, RDF/XML) maps to a source error wrapping
exactly its variant of the unified sum type with the original error preserved
inside; sink errors pass through unchanged; the adaptation never turns a source
error into a sink error or vice versa; results pass values through and adapt
errors. -/
theorem c7_stream_error_adaptation_variant_preserving :
    ∀ (SourceErr SinkErr V : Type) (into : SourceErr → SomeHowParseError)
      (t : TurtleError) (x : RdfXmlError) (k : SinkErr)
      (e : StreamError SourceErr SinkErr) (v : V),
      adapt_quads_stream_error SomeHowParseError.from_turtle_error
          (StreamError.sourceError t : StreamError TurtleError SinkErr)
        = .sourceError ⟨.turtle t⟩
      ∧ adapt_quads_stream_error SomeHowParseError.from_rdf_xml_error
          (StreamError.sourceError x : StreamError RdfXmlError SinkErr)
        = .sourceError ⟨.rdfXml x⟩
      ∧ adapt_quads_stream_error into
          (StreamError.sinkError k : StreamError SourceErr SinkErr)
        = .sinkError k
      ∧ (adapt_quads_stream_error into e).isSource = e.isSource
      ∧ adapt_stream_result into (Except.ok v : Except (StreamError SourceErr SinkErr) V)
        = .ok v
      ∧ adapt_stream_result into (Except.error e : Except (StreamError SourceErr SinkErr) V)
        = .error (adapt_quads_stream_error into e) := by
  intro SourceErr SinkErr V into t x k e v
  refine ⟨rfl, rfl, rfl, ?_, rfl, rfl⟩
  cases e <;> rfl

/-- Claim C1: for both quad-producing engines (N-Quads, TriG) driven through
`DynSynTripleSource` with configured graph term `cfg` (possibly `none`), the
caller's callback receives, in order, exactly the quads whose graph name equals
`cfg` by term value (both-`none` counting as equal), each forwarded as the
triple of its subject, predicate and object; quads with a different graph name
are skipped without producing an error. -/
theorem c1_quad_to_triple_graph_filtering :
    ∀ (T : Type) [_inst : DecidableEq T] (cfg : Option T) (quads : List (RdfQuad T)),
      DynSynTripleSource.try_for_some_triple
          (⟨.fNQuads ⟨quads, none⟩, cfg⟩ : DynSynTripleSource T)
          (fun st t => (Except.ok (st ++ [t]) : Except Unit (List (RdfTriple T)))) []
        = .ok ((quads.filter (fun q => decide (q.g = cfg))).map (fun q => ⟨q.s, q.p, q.o⟩))
      ∧ DynSynTripleSource.try_for_some_triple
          (⟨.fTriG ⟨quads, none⟩, cfg⟩ : DynSynTripleSource T)
          (fun st t => (Except.ok (st ++ [t]) : Except Unit (List (RdfTriple T)))) []
        = .ok ((quads.filter (fun q => decide (q.g = cfg))).map (fun q => ⟨q.s, q.p, q.o⟩)) := by
  intro T _inst cfg quads
  constructor <;>
  · simp only [DynSynTripleSource.try_for_some_triple,
      DynSynTripleSource.try_for_some_triple_adapted_from_rio_quad_source,
      StrictRioSource.drive, Bool.not_eq_true']
    rw [runCallback_filter_map_acc (fun q => quad_in_graph q.g cfg)
      (fun q => (⟨q.s, q.p, q.o⟩ : RdfTriple T)) quads []]
    simp only [quad_in_graph_eq_decide, adapt_stream_result, List.nil_append]

/-- Claim C2: for all three triple-producing engines (Turtle, N-Triples,
RDF/XML) driven through `DynSynQuadSource` with configured graph term `giri`
(possibly `none`), the caller's callback receives, in order, exactly one quad
per native triple, whose graph name is `giri` and whose subject, predicate and
object are the triple's terms unchanged. -/
theorem c2_triple_to_quad_graph_annotation :
    ∀ (T : Type) (giri : Option T) (triples : List (RdfTriple T)),
      DynSynQuadSource.try_for_some_quad
          (⟨.fNTriples ⟨triples, none⟩, giri⟩ : DynSynQuadSource T)
          (fun st q => (Except.ok (st ++ [q]) : Except Unit (List (RdfQuad T)))) []
        = .ok (triples.map (fun t => ⟨t.s, t.p, t.o, giri⟩))
      ∧ DynSynQuadSource.try_for_some_quad
          (⟨.fTurtle ⟨triples, none⟩, giri⟩ : DynSynQuadSource T)
          (fun st q => (Except.ok (st ++ [q]) : Except Unit (List (RdfQuad T)))) []
        = .ok (triples.map (fun t => ⟨t.s, t.p, t.o, giri⟩))
      ∧ DynSynQuadSource.try_for_some_quad
          (⟨.fRdfXml ⟨triples, none⟩, giri⟩ : DynSynQuadSource T)
          (fun st q => (Except.ok (st ++ [q]) : Except Unit (List (RdfQuad T)))) []
        = .ok (triples.map (fun t => ⟨t.s, t.p, t.o, giri⟩)) := by
  intro T giri triples
  refine ⟨?_, ?_, ?_⟩ <;>
  · simp only [DynSynQuadSource.try_for_some_quad,
      DynSynQuadSource.try_for_some_quad_adapted_from_rio_triple_source,
      StrictRioSource.drive]
    rw [runCallback_map_acc
      (fun t => (⟨t.s, t.p, t.o, giri.bind (fun gv => some gv)⟩ : RdfQuad T)) triples []]
    cases giri <;>
      simp only [adapt_stream_result, List.nil_append, Option.bind, Option.some_bind,
        Option.none_bind]

end RdfDynsyn
